import Mathlib

/-
  Verification of the CourtSearch retrieval-and-normalization pipeline.

  Shallow embedding of the Python sources:
  - scrapers/base.py        : SearchCriteria, CourtCase, CountyScraper._filter_and_sort_cases
  - scrapers/__init__.py    : registry and search_court_records orchestrator
  - scrapers/new_york.py    : retry/backoff loop and NY case-type classifier
  - scrapers/broward.py     : Broward case-type classifier, Kendo-grid extraction
  - backend/app.py          : HTTP-layer request validation

  External capabilities (dateutil date parsing, the browser, the network) are
  modelled as explicit parameters: `parseDate : String → Option Int` stands for
  `dateutil.parser.parse` returning a POSIX timestamp in seconds (`none` when
  the library would raise), `now : Int` stands for `datetime.now().timestamp()`,
  and an environment `String → ScraperOutcome` stands for the per-county
  adapter invocations.
-/

namespace CourtSearch

/-! ## Python string primitives (ASCII fragment, as used by the sources) -/

/-- Python `str.lower()` restricted to ASCII (all text reaching these code
paths in the witnesses is ASCII). -/
def pyLower (s : String) : String :=
  String.mk (s.data.map Char.toLower)

/-- Python `str.upper()` restricted to ASCII. -/
def pyUpper (s : String) : String :=
  String.mk (s.data.map Char.toUpper)

/-- Helper for substring search: does `needle` occur inside the list? -/
def containsAux (needle : List Char) : List Char → Bool
  | [] => needle.isEmpty
  | c :: rest => needle.isPrefixOf (c :: rest) || containsAux needle rest

/-- Python `needle in hay` on strings (substring containment). -/
def pyIn (needle hay : String) : Bool :=
  containsAux needle.data hay.data

/-- Python `s[0]` on a string already checked to be non-empty (the default is
never reached behind the source's `len(...) > 0` guards). -/
def pyFirstChar (s : String) : Char :=
  s.data.headD 'A'

/-- Helper for `pyTitle`: the boolean carries whether the previous character
was alphabetic. -/
def pyTitleAux : Bool → List Char → List Char
  | _, [] => []
  | prevAlpha, c :: rest =>
    let c' := if c.isAlpha then (if prevAlpha then c.toLower else c.toUpper) else c
    c' :: pyTitleAux c.isAlpha rest

/-- Python `str.title()` restricted to ASCII: the first letter of every
alphabetic run is uppercased, subsequent letters lowercased. -/
def pyTitle (s : String) : String :=
  String.mk (pyTitleAux false s.data)

/-- The characters Python `str.strip()` removes by default. -/
def pyIsSpace (c : Char) : Bool :=
  c ∈ [' ', '\t', '\n', '\x0d', '\x0b', '\x0c']

/-- Python `str.strip()` (no argument): whitespace removed from both ends. -/
def pyStrip (s : String) : String :=
  String.mk (((s.data.dropWhile pyIsSpace).reverse.dropWhile pyIsSpace).reverse)

/-- Python truthiness of an optional string (`None` and `""` are falsy). -/
def optTruthy : Option String → Bool
  | none => false
  | some s => decide (s ≠ "")

/-! ## Data model (scrapers/base.py) -/

/-- Embedding of the `SearchCriteria` dataclass from scrapers/base.py. -/
structure SearchCriteria where
  first_name : String
  last_name : String
  middle_name : Option String := none
  date_of_birth : Option String := none
  county : Option String := none
deriving DecidableEq, Repr

/-- Embedding of the `CourtCase` dataclass from scrapers/base.py.  The Python field `section`
is rendered `section_text` here because `section` is reserved in Lean. -/
structure CourtCase where
  case_number : String
  case_type : String
  filing_date : String
  status : String
  county : String
  parties : String
  court_division : String := ""
  judge : String := ""
  amount : String := ""
  disposition_date : String := ""
  section_text : String := ""
  verification_instructions : String := ""
  search_results_url : String := ""
deriving DecidableEq, Repr

/-- Constant `CASE_AGE_LIMIT_YEARS` from scrapers/base.py. -/
def CASE_AGE_LIMIT_YEARS : Nat := 5

/-- Constant `EXCLUDED_CASE_TYPES` from scrapers/base.py (the code's set, verbatim). -/
def EXCLUDED_CASE_TYPES : List String :=
  ["Family", "Criminal", "Criminal Felony", "Criminal Misdemeanor", "Traffic"]

/-- The excluded set as the specification writes it (§4.5 step 1), kept
separate so the exclusion stage can be compared against it. -/
def SPEC_EXCLUDED_CASE_TYPES : List String :=
  ["Family", "Criminal Felony", "Criminal Misdemeanor", "Traffic"]

/-! ## Filter & Sort engine (`CountyScraper._filter_and_sort_cases`) -/

/-- The cutoff `datetime.now() - timedelta(days=CASE_AGE_LIMIT_YEARS * 365)` as a POSIX
timestamp in seconds. -/
def cutoff_date (now : Int) : Int :=
  now - (CASE_AGE_LIMIT_YEARS : Int) * 365 * 86400

/-- The case-type exclusion stage: `if case.case_type in EXCLUDED_CASE_TYPES:
continue` (membership in the module-level set). -/
def passes_type_filter (c : CourtCase) : Bool :=
  !(decide (c.case_type ∈ EXCLUDED_CASE_TYPES))

/-- The guard `case.filing_date and case.filing_date != "N/A"` (Python
truthiness: the empty string is falsy). -/
def date_guard (c : CourtCase) : Bool :=
  decide (c.filing_date ≠ "" ∧ c.filing_date ≠ "N/A")

/-- The recency stage: inside `try`, a guarded parse is compared against the
cutoff; a parse failure (the `except` arm) keeps the case. -/
def passes_age_filter (parseDate : String → Option Int) (now : Int)
    (c : CourtCase) : Bool :=
  if date_guard c then
    match parseDate c.filing_date with
    | some t => !(decide (t < cutoff_date now))
    | none => true
  else true

/-- The name-relevance stage of `_filter_and_sort_cases` (the `if criteria:`
block).  Note the first-initial "dotted" pattern: the Python source builds it
with a non-raw f-string joining the first initial, an escape of backslash
followed by a dot, a space, and the lowered last name; that escape stays a
literal backslash-dot pair, and the pattern is then tested with substring
`in` — so the embedded pattern keeps that literal backslash. -/
def passes_name_filter (crit : Option SearchCriteria) (c : CourtCase) : Bool :=
  match crit with
  | none => true
  | some criteria =>
    let party_text := pyLower c.parties
    let last_lower := pyLower criteria.last_name
    let last_in_party := pyIn last_lower party_text
    if !last_in_party then false
    else
      let first_name_lower := pyLower criteria.first_name
      let first_direct := pyIn first_name_lower party_text
      let first_in_party :=
        if !first_direct && decide (0 < first_name_lower.length) then
          pyIn (String.singleton (pyFirstChar first_name_lower) ++ "\\. " ++ last_lower)
            party_text
          || pyIn (String.singleton (pyFirstChar first_name_lower) ++ " " ++ last_lower)
            party_text
        else first_direct
      let middle_in_party :=
        match criteria.middle_name with
        | some m => if decide (m ≠ "") then pyIn (pyLower m) party_text else false
        | none => false
      last_in_party && (first_in_party || middle_in_party)

/-- A case survives the filtering loop iff it passes the three stages in
order (type exclusion, recency, name relevance). -/
def keepCase (parseDate : String → Option Int) (now : Int)
    (crit : Option SearchCriteria) (c : CourtCase) : Bool :=
  passes_type_filter c && passes_age_filter parseDate now c
    && passes_name_filter crit c

/-- Function `sort_key` from `_filter_and_sort_cases`: status priority (0 for
OPEN/ACTIVE/PENDING after upper-casing, else 1), then the negated filing
timestamp when the guarded parse succeeds, else the literal `0`. -/
def sort_key (parseDate : String → Option Int) (c : CourtCase) : Nat × Int :=
  let status_priority : Nat :=
    if pyUpper c.status ∈ ["OPEN", "ACTIVE", "PENDING"] then 0 else 1
  let date_score : Int :=
    if date_guard c then
      match parseDate c.filing_date with
      | some t => -t
      | none => 0
    else 0
  (status_priority, date_score)

/-- Ascending lexicographic order on sort keys, as Python compares the
tuples returned by `sort_key`. -/
def keyLeP (x y : Nat × Int) : Prop :=
  x.1 < y.1 ∨ (x.1 = y.1 ∧ x.2 ≤ y.2)

instance (x y : Nat × Int) : Decidable (keyLeP x y) := by
  unfold keyLeP; infer_instance

/-- Strict lexicographic order on sort keys. -/
def keyLtP (x y : Nat × Int) : Prop :=
  x.1 < y.1 ∨ (x.1 = y.1 ∧ x.2 < y.2)

instance (x y : Nat × Int) : Decidable (keyLtP x y) := by
  unfold keyLtP; infer_instance

/-- The order in which `filtered.sort(key=sort_key)` arranges two cases. -/
def caseLe (parseDate : String → Option Int) (a b : CourtCase) : Prop :=
  keyLeP (sort_key parseDate a) (sort_key parseDate b)

instance (parseDate : String → Option Int) : DecidableRel (caseLe parseDate) :=
  fun a b => by unfold caseLe; infer_instance

/-- Embedding of `CountyScraper._filter_and_sort_cases`: the filtering loop keeps input
order (so it is `List.filter`), then Python's stable `list.sort` with
`sort_key`; `List.insertionSort` under the non-strict key order is a stable
sort, so it arranges equal keys exactly as `list.sort` does. -/
def filter_and_sort_cases (parseDate : String → Option Int) (now : Int)
    (cases : List CourtCase) (crit : Option SearchCriteria) : List CourtCase :=
  List.insertionSort (caseLe parseDate) (cases.filter (keepCase parseDate now crit))

/-- The sort key as the specification §4.5 describes it: identical status
priority, but the neutral recency value for a missing/unparseable date is
"now" (the case sorts as if filed today), i.e. a score of `-now`. -/
def spec_sort_key (parseDate : String → Option Int) (now : Int)
    (c : CourtCase) : Nat × Int :=
  let status_priority : Nat :=
    if pyUpper c.status ∈ ["OPEN", "ACTIVE", "PENDING"] then 0 else 1
  let date_score : Int :=
    if date_guard c then
      match parseDate c.filing_date with
      | some t => -t
      | none => -now
    else -now
  (status_priority, date_score)

/-- The name-relevance predicate as the specification §4.5 step 3 and claim
C2 word it: the dotted first-initial pattern is the plain
`"<first-letter>. <last_name>"` (no backslash). -/
def spec_name_match (criteria : SearchCriteria) (parties : String) : Bool :=
  let p := pyLower parties
  let last := pyLower criteria.last_name
  let first := pyLower criteria.first_name
  pyIn last p &&
    (pyIn first p
      || pyIn (String.singleton (pyFirstChar first) ++ ". " ++ last) p
      || pyIn (String.singleton (pyFirstChar first) ++ " " ++ last) p
      || (match criteria.middle_name with
          | some m => decide (m ≠ "") && pyIn (pyLower m) p
          | none => false))

/-! ## Orchestrator (`scrapers/__init__.py`, `search_court_records`) -/

/-- The exception classes distinguished by `search_court_records`; `other`
stands for any exception that is none of the three named ones. -/
inductive PyExc where
  | valueError
  | scraperError
  | notImplementedError
  | other
deriving DecidableEq, Repr

/-- What one adapter invocation (`scraper.search(criteria)`, including the
scraper construction) does: return a case list or raise. -/
inductive ScraperOutcome where
  | ok (cases : List CourtCase)
  | raised (e : PyExc)
deriving DecidableEq, Repr

/-- The keys of the `COUNTY_SCRAPERS` registry, in declaration order. -/
def COUNTY_SCRAPERS : List String := ["miami-dade", "broward", "new-york"]

/-- What one county contributes to a statewide search: its cases on success,
nothing when its adapter raises (every exception class is caught there). -/
def county_contribution (o : ScraperOutcome) : List CourtCase :=
  match o with
  | .ok cs => cs
  | .raised _ => []

/-- The statewide branch of `search_court_records`: every county in registry
order, each `try` body catching `NotImplementedError`, `ScraperError` and the
blanket `Exception`. -/
def statewide_search (env : String → ScraperOutcome) : List CourtCase :=
  (COUNTY_SCRAPERS.map (fun name => county_contribution (env name))).flatten

/-- Embedding of `search_court_records(criteria)` over an adapter environment `env`.
The explicit-county branch wraps `get_scraper` (which raises `ValueError` for
an unknown county after `county.lower().strip()`) and the search in a `try`
that catches only `ValueError`, `ScraperError` and `NotImplementedError`; any
other exception escapes.  The statewide branch catches everything. -/
def search_court_records (env : String → ScraperOutcome)
    (criteria : SearchCriteria) : Except PyExc (List CourtCase) :=
  match criteria.county with
  | some county =>
    if county ≠ "" then
      let key := pyStrip (pyLower county)
      if key ∈ COUNTY_SCRAPERS then
        match env key with
        | .ok cs => .ok cs
        | .raised e =>
          match e with
          | .other => .error .other
          | _ => .ok []
      else .ok []
    else .ok (statewide_search env)
  | none => .ok (statewide_search env)

/-! ## Retry/Backoff controller (`new_york.py`, `_async_search_with_playwright`) -/

/-- Constant `NewYorkScraper.MAX_RETRIES`. -/
def MAX_RETRIES : Nat := 3

/-- Constant `NewYorkScraper.BACKOFF_TIMES` (seconds between retries). -/
def BACKOFF_TIMES : List Nat := [10, 30, 90]

/-- How one attempt of the NY Playwright search ends. -/
inductive AttemptResult where
  | challengeBlocked
  | exceptionRaised (timeoutLike : Bool)
  | formNotFound
  | parsed (cases : List CourtCase)
deriving DecidableEq, Repr

/-- Observable events of the retry loop. -/
inductive RetryEvent where
  | attempt (n : Nat)
  | backoff (seconds : Nat)
deriving DecidableEq, Repr

/-- The `for attempt in range(self.MAX_RETRIES)` loop of
`_async_search_with_playwright`, with the outcome of each attempt supplied by
`outcomes`.  A still-blocked Cloudflare challenge and a raised exception both
back off `BACKOFF_TIMES[attempt]` and continue when `attempt` is not the last
one, and otherwise end the call with `[]`; a missing form returns `[]` at
once; parsed results return immediately.  `fuel` counts loop iterations left
and starts at `MAX_RETRIES`. -/
def ny_search_loop (outcomes : Nat → AttemptResult) :
    Nat → Nat → List RetryEvent → List RetryEvent × List CourtCase
  | _, 0, events => (events.reverse, [])
  | i, fuel + 1, events =>
    let events := RetryEvent.attempt (i + 1) :: events
    match outcomes i with
    | .parsed cs => (events.reverse, cs)
    | .formNotFound => (events.reverse, [])
    | .challengeBlocked =>
      if i < MAX_RETRIES - 1 then
        ny_search_loop outcomes (i + 1) fuel
          (RetryEvent.backoff (BACKOFF_TIMES.getD i 0) :: events)
      else (events.reverse, [])
    | .exceptionRaised _ =>
      if i < MAX_RETRIES - 1 then
        ny_search_loop outcomes (i + 1) fuel
          (RetryEvent.backoff (BACKOFF_TIMES.getD i 0) :: events)
      else (events.reverse, [])

/-- Embedding of `_async_search_with_playwright` as a trace of retry events plus the
returned case list. -/
def async_search_with_playwright (outcomes : Nat → AttemptResult) :
    List RetryEvent × List CourtCase :=
  ny_search_loop outcomes 0 MAX_RETRIES []

/-- The backoff delays actually slept, in order. -/
def backoff_delays (events : List RetryEvent) : List Nat :=
  events.filterMap fun e =>
    match e with
    | .backoff s => some s
    | .attempt _ => none

/-- How many attempts a trace contains. -/
def attempt_total (events : List RetryEvent) : Nat :=
  (events.filter fun e =>
    match e with
    | .attempt _ => true
    | .backoff _ => false).length

/-! ## Case-type classification -/

/-- Python `any(term in text for term in terms)`. -/
def anyIn (terms : List String) (text : String) : Bool :=
  terms.any fun t => pyIn t text

/-- Embedding of `NewYorkScraper._classify_ny_case_type`. -/
def classify_ny_case_type (current_type parties : String)
    (cell_texts : List String) : String :=
  let all_text :=
    pyUpper (current_type ++ " " ++ parties ++ " " ++ String.intercalate " " cell_texts)
  if anyIn ["COMMERCIAL", "BUSINESS", "CORPORATE", "COMPANY", "LLC", "INC"] all_text then
    "Commercial"
  else if anyIn ["CONTRACT", "BREACH", "AGREEMENT"] all_text then
    "Contract"
  else if anyIn ["INSURANCE", "INSURER", "CLAIM"] all_text then
    "Insurance"
  else if anyIn ["DEBT", "COLLECTION", "CREDITOR"] all_text then
    "Debt Collection"
  else if anyIn ["REAL ESTATE", "PROPERTY", "FORECLOSURE"] all_text then
    "Real Estate"
  else if anyIn ["MALPRACTICE", "PROFESSIONAL"] all_text then
    "Professional Malpractice"
  else if current_type = "Civil" || anyIn ["CIVIL", "LAWSUIT", "ACTION"] all_text then
    "Civil"
  else current_type

/-- Embedding of `BrowardScraper._classify_broward_case_type`. -/
def classify_broward_case_type (case_type_raw default : String) : String :=
  let ct := pyUpper case_type_raw
  if anyIn ["FELONY", "CRIMINAL"] ct then "Criminal Felony"
  else if anyIn ["MISDEMEANOR"] ct then "Criminal Misdemeanor"
  else if anyIn ["FAMILY", "DIVORCE", "CUSTODY", "DISSOLUTION"] ct then "Family"
  else if anyIn ["TRAFFIC", "INFRACTION"] ct then "Traffic"
  else if anyIn ["FORECLOSURE"] ct then "Foreclosure"
  else if anyIn ["SMALL CLAIMS"] ct then "Small Claims"
  else if anyIn ["PROBATE", "ESTATE", "ADMINISTRATION", "WILL"] ct then "Probate"
  else if anyIn ["CIVIL", "CONTRACT", "NEGLIGENCE", "TORT"] ct then "Civil"
  else if anyIn ["PETITION", "CLAIM"] ct then "Civil"
  else default

/-! ## Broward Kendo-grid extraction (`broward.py`, `_parse_kendo_data`) -/

/-- Constant `BrowardScraper.SEARCH_URL`. -/
def BROWARD_SEARCH_URL : String :=
  "https://www.browardclerk.org/Web2/CaseSearchECA/Index/?AccessLevel=SUBSCRIBER"

/-- One row of the Kendo grid data source, with the fields `_parse_kendo_data`
reads (each already passed through `str(...)`, absent keys giving `""`). -/
structure KendoItem where
  CaseNumber : String := ""
  Style : String := ""
  CourtType : String := ""
  CaseUTypeDesc : String := ""
  SortCaseFiledDate : String := ""
  DispositionCode : String := ""
  CaseStatusDesc : String := ""
  JudgeName : String := ""
  CourtLocation : String := ""
  CaseStatusDate : String := ""
deriving DecidableEq, Repr

/-- Assignment `status_raw = disposition or status_desc` (Python `or`: the first operand
unless it is empty). -/
def kendo_status_raw (item : KendoItem) : String :=
  if item.DispositionCode ≠ "" then item.DispositionCode else item.CaseStatusDesc

/-- The status normalization shared by `_parse_kendo_data` and
`_parse_broward_table_row`: keyword buckets to `Closed`/`Open`, otherwise a
title-cased passthrough of the raw text, `Unknown` only when the raw text is
empty. -/
def broward_normalize_status (status_raw : String) : String :=
  let status_upper := pyUpper status_raw
  if pyIn "CLOSED" status_upper || pyIn "DISPOSED" status_upper then "Closed"
  else if pyIn "OPEN" status_upper || pyIn "ACTIVE" status_upper
      || pyIn "PENDING" status_upper then "Open"
  else if status_raw ≠ "" then pyTitle status_raw
  else "Unknown"

/-- The body of `_parse_kendo_data`'s per-item loop: `none` models the
`continue` for an empty case number. -/
def parse_kendo_item (item : KendoItem) (case_type_default : String) :
    Option CourtCase :=
  if item.CaseNumber = "" then none
  else
    let case_number := item.CaseNumber
    let parties := pyStrip item.Style
    let case_type_raw := pyStrip (item.CourtType ++ " " ++ item.CaseUTypeDesc)
    let filing_date :=
      if item.SortCaseFiledDate ≠ "" then
        match item.SortCaseFiledDate.splitOn "/" with
        | [y, m, d] => m ++ "/" ++ d ++ "/" ++ y
        | _ => item.SortCaseFiledDate
      else "N/A"
    let case_type := classify_broward_case_type case_type_raw case_type_default
    let status := broward_normalize_status (kendo_status_raw item)
    some
      { case_number := case_number
        case_type := case_type
        filing_date := filing_date
        status := status
        county := "Broward"
        parties := parties
        court_division := item.CourtLocation
        judge := item.JudgeName
        disposition_date := item.CaseStatusDate
        verification_instructions :=
          "To verify this case manually: 1. Visit " ++ BROWARD_SEARCH_URL
            ++ " 2. Search for Case Number: " ++ case_number
            ++ " 3. Verify all details match your records"
        search_results_url := BROWARD_SEARCH_URL }

/-- Embedding of `_parse_kendo_data` over the whole grid. -/
def parse_kendo_data (grid : List KendoItem) (case_type_default : String) :
    List CourtCase :=
  grid.filterMap fun item => parse_kendo_item item case_type_default

/-! ## HTTP-layer validation (`backend/app.py`, `start_search`) -/

/-- The JSON body of `POST /api/search`, restricted to the fields the handler
reads (`data.get(k)` yields `none` for an absent key). -/
structure ApiRequest where
  first_name : Option String := none
  last_name : Option String := none
  middle_name : Option String := none
  date_of_birth : Option String := none
deriving DecidableEq, Repr

/-- Python `(value or '')` for an optional string. -/
def pyOrEmpty : Option String → String
  | none => ""
  | some s => s

/-- The validation-and-construction part of `start_search`: blank required
names are rejected with HTTP 400 before any search work begins; otherwise the
`SearchCriteria` is built with `county=None`. -/
def start_search_validation (req : ApiRequest) : Except String SearchCriteria :=
  let first_name := pyStrip (pyOrEmpty req.first_name)
  let last_name := pyStrip (pyOrEmpty req.last_name)
  if first_name = "" ∨ last_name = "" then
    .error "first_name and last_name are required"
  else
    let middle_name := pyStrip (pyOrEmpty req.middle_name)
    let date_of_birth := pyStrip (pyOrEmpty req.date_of_birth)
    .ok
      { first_name := first_name
        last_name := last_name
        middle_name := if middle_name = "" then none else some middle_name
        date_of_birth := if date_of_birth = "" then none else some date_of_birth
        county := none }

/-! ## Concrete fixtures used by witnesses and counterexamples -/

/-- A reference clock: 2027-01-15 (POSIX seconds). -/
def demoNow : Int := 1800000000

/-- A concrete stand-in for `dateutil.parser.parse`, defined on the two
dates the fixtures use and failing elsewhere. -/
def demoParse : String → Option Int := fun s =>
  if s = "06/01/2024" then some 1717200000
  else if s = "01/01/2000" then some 946684800
  else none

/-- An open civil case whose filing date `dateutil` cannot parse. -/
def caseA : CourtCase :=
  { case_number := "A-1", case_type := "Civil", filing_date := "sometime soon",
    status := "Open", county := "Broward", parties := "John Smith v Acme" }

/-- An open civil case filed 06/01/2024. -/
def caseB : CourtCase :=
  { case_number := "B-1", case_type := "Civil", filing_date := "06/01/2024",
    status := "Open", county := "Broward", parties := "John Smith v Bank" }

/-- A case typed with the bare word `Criminal` (in the code's excluded set
but not in the specification's). -/
def criminalCase : CourtCase :=
  { case_number := "C-1", case_type := "Criminal", filing_date := "N/A",
    status := "Open", county := "Broward", parties := "State v John Smith" }

/-- A case bearing an excluded type shared by code and spec. -/
def criminalFelonyCase : CourtCase :=
  { case_number := "F-1", case_type := "Criminal Felony", filing_date := "N/A",
    status := "Open", county := "Broward", parties := "State v John Smith" }

/-- A plain civil case passing every filter stage. -/
def civilCase : CourtCase :=
  { case_number := "V-1", case_type := "Civil", filing_date := "N/A",
    status := "Open", county := "Broward", parties := "Bank v John Smith" }

/-- A civil case filed 01/01/2000, far older than the 5-year window. -/
def oldCase : CourtCase :=
  { case_number := "O-1", case_type := "Civil", filing_date := "01/01/2000",
    status := "Closed", county := "Broward", parties := "Bank v John Smith" }

/-- Criteria for Alice Smith, no middle name. -/
def aliceCriteria : SearchCriteria := { first_name := "Alice", last_name := "Smith" }

/-- A case whose party text abbreviates the first name with a dotted
initial, exactly the situation the dotted-initial pattern is meant for. -/
def dottedInitialCase : CourtCase :=
  { case_number := "D-1", case_type := "Civil", filing_date := "N/A",
    status := "Open", county := "Broward", parties := "A. Smith" }

/-- A Kendo grid row whose status text is `STAYED` (neither a closed nor an
open keyword). -/
def stayedItem : KendoItem :=
  { CaseNumber := "CACE-24-012345", Style := "ACME BANK VS JOHN SMITH",
    CourtType := "Civil", CaseUTypeDesc := "Contract",
    SortCaseFiledDate := "2024/06/01", CaseStatusDesc := "STAYED" }

/-- Fallback value for reading an optional case. -/
def defaultCase : CourtCase :=
  { case_number := "", case_type := "", filing_date := "", status := "",
    county := "", parties := "" }

/-- An adapter environment where Broward raises an exception outside the
three classes the explicit-county branch catches. -/
def envTypeErrorBroward : String → ScraperOutcome := fun name =>
  if name = "broward" then .raised .other else .ok []

/-- An adapter environment where Broward raises `ScraperError`. -/
def envScraperErrorBroward : String → ScraperOutcome := fun name =>
  if name = "broward" then .raised .scraperError else .ok []

/-- A sample result case for orchestrator fixtures. -/
def sampleCase : CourtCase :=
  { case_number := "S-1", case_type := "Civil", filing_date := "N/A",
    status := "Open", county := "Broward", parties := "Bank v Doe" }

/-- An adapter environment where Broward succeeds with one case. -/
def envOkBroward : String → ScraperOutcome := fun name =>
  if name = "broward" then .ok [sampleCase] else .ok []

/-- Criteria naming Broward explicitly. -/
def browardCriteria : SearchCriteria :=
  { first_name := "John", last_name := "Smith", county := some "Broward" }

/-- Criteria with both required names empty, aimed at one county. -/
def emptyNamesCriteria : SearchCriteria :=
  { first_name := "", last_name := "", county := some "broward" }

/-- An API request whose first name is blank after stripping. -/
def blankFirstRequest : ApiRequest :=
  { first_name := some "  ", last_name := some "Smith" }

/-! ## Order-theoretic helper lemmas for the sort key -/

theorem keyLeP_total (x y : Nat × Int) : keyLeP x y ∨ keyLeP y x := by
  unfold keyLeP; omega

theorem keyLeP_trans (x y z : Nat × Int) :
    keyLeP x y → keyLeP y z → keyLeP x z := by
  unfold keyLeP; omega

instance (parseDate : String → Option Int) :
    IsTotal CourtCase (caseLe parseDate) :=
  ⟨fun a b => keyLeP_total _ _⟩

instance (parseDate : String → Option Int) :
    IsTrans CourtCase (caseLe parseDate) :=
  ⟨fun a b c => keyLeP_trans _ _ _⟩

/-- The title-cased passthrough branch structure of the shared Broward status
normalization. -/
theorem broward_status_range (raw : String) :
    broward_normalize_status raw = "Closed" ∨ broward_normalize_status raw = "Open"
    ∨ broward_normalize_status raw = "Unknown"
    ∨ broward_normalize_status raw = pyTitle raw := by
  unfold broward_normalize_status
  dsimp only
  split_ifs <;> simp

/-! ## Claim theorems -/

/-- C1, counterexample: a case typed with the bare word `Criminal` is not in
the excluded set the claim states, passes the recency and name stages, and is
nevertheless dropped by `_filter_and_sort_cases` — the code's excluded set
also contains `Criminal`. -/
theorem criminal_dropped_beyond_spec_set :
    filter_and_sort_cases demoParse demoNow [criminalCase] none = []
    ∧ criminalCase.case_type ∉ SPEC_EXCLUDED_CASE_TYPES
    ∧ passes_age_filter demoParse demoNow criminalCase = true
    ∧ passes_name_filter none criminalCase = true :=
  ⟨by decide, by decide, by decide, by decide⟩

/-- C1, amended: the case-type exclusion stage of `_filter_and_sort_cases`
drops exactly the cases whose `case_type` is in the set Family, Criminal,
Criminal Felony, Criminal Misdemeanor, Traffic — the
code's set, which also holds the bare word `Criminal` — and preserves every
case of any other type, modulo the recency and name stages. -/
theorem type_exclusion_stage (parseDate : String → Option Int) (now : Int)
    (crit : Option SearchCriteria) (cases : List CourtCase) (c : CourtCase) :
    (c.case_type ∈ EXCLUDED_CASE_TYPES →
      c ∉ filter_and_sort_cases parseDate now cases crit)
    ∧ (c ∈ cases → c.case_type ∉ EXCLUDED_CASE_TYPES →
        passes_age_filter parseDate now c = true →
        passes_name_filter crit c = true →
        c ∈ filter_and_sort_cases parseDate now cases crit) := by
  constructor
  · intro hex hmem
    rw [filter_and_sort_cases, (List.perm_insertionSort _ _).mem_iff] at hmem
    have hk := List.of_mem_filter hmem
    simp [keepCase, passes_type_filter, hex] at hk
  · intro hmem hnot hage hname
    rw [filter_and_sort_cases, (List.perm_insertionSort _ _).mem_iff]
    exact List.mem_filter.mpr
      ⟨hmem, by simp [keepCase, passes_type_filter, hnot, hage, hname]⟩

/-- C1, witness: a `Criminal Felony` case is dropped and a `Civil` case that
passes the other stages is preserved. -/
theorem type_exclusion_stage_witness :
    criminalFelonyCase ∉
      filter_and_sort_cases demoParse demoNow [criminalFelonyCase] none
    ∧ civilCase ∈ filter_and_sort_cases demoParse demoNow [civilCase] none :=
  ⟨(type_exclusion_stage demoParse demoNow none [criminalFelonyCase]
      criminalFelonyCase).1 (by decide),
   (type_exclusion_stage demoParse demoNow none [civilCase] civilCase).2
      (by decide) (by decide) (by decide) (by decide)⟩

/-- C2: on parties `"A. Smith"` with criteria first=`Alice`, last=`Smith`,
the name stage as the specification words it keeps the case (the dotted
first-initial pattern `"a. smith"` matches), but the code drops it: the
Python source builds the dotted pattern with a backslash escape inside a
non-raw f-string, producing a literal backslash-dot-space sequence, and
then tests it with substring `in`, so it can never match ordinary text. -/
theorem initial_pattern_backslash_bug :
    spec_name_match aliceCriteria "A. Smith" = true
    ∧ passes_name_filter (some aliceCriteria) dottedInitialCase = false
    ∧ filter_and_sort_cases demoParse demoNow [dottedInitialCase]
        (some aliceCriteria) = [] :=
  ⟨by decide, by decide, by decide⟩

/-- C3, counterexample: two kept Open cases, `caseA` with an unparseable
filing date and `caseB` filed 06/01/2024.  Under the claim's key (unparseable
dates score as "now") `caseA` sorts strictly before `caseB`, but the code
scores unparseable dates `0` — the Unix epoch — and outputs `caseB` first. -/
theorem unparseable_date_sorts_as_epoch_not_now :
    filter_and_sort_cases demoParse demoNow [caseA, caseB] none = [caseB, caseA]
    ∧ keyLtP (spec_sort_key demoParse demoNow caseA)
        (spec_sort_key demoParse demoNow caseB) :=
  ⟨by decide, by decide⟩

/-- C3, amended: the engine's output is the stable ascending sort of the kept
cases by the key (status priority, date score), where the status priority is
0 for OPEN/ACTIVE/PENDING (case-insensitively) and 1 otherwise, and the date
score is the negated filing timestamp when the guarded parse succeeds and 0
(the Unix epoch) otherwise — so Open cases sort strictly before the rest,
newer filings sort first within a bucket, and a case with an unparseable
filing date sorts as if filed at the epoch, after any post-1970 filing in its
bucket. -/
theorem filter_sort_ordering (parseDate : String → Option Int) (now : Int)
    (cases : List CourtCase) (crit : Option SearchCriteria) :
    List.Sorted (caseLe parseDate)
      (filter_and_sort_cases parseDate now cases crit)
    ∧ (filter_and_sort_cases parseDate now cases crit).Perm
        (cases.filter (keepCase parseDate now crit)) :=
  ⟨List.sorted_insertionSort _ _, List.perm_insertionSort _ _⟩

/-- C4: the recency stage removes a case whose guarded filing date parses to
`t` iff `t` is before the cutoff (the reference clock minus the configured
5-year window of `CASE_AGE_LIMIT_YEARS * 365` days), and never removes a case
whose date fails to parse or is unknown (empty or `"N/A"`). -/
theorem recency_filter_iff (parseDate : String → Option Int) (now : Int)
    (c : CourtCase) :
    (∀ t : Int, date_guard c = true → parseDate c.filing_date = some t →
      (passes_age_filter parseDate now c = false ↔ t < cutoff_date now))
    ∧ (parseDate c.filing_date = none →
        passes_age_filter parseDate now c = true)
    ∧ (date_guard c = false → passes_age_filter parseDate now c = true) := by
  refine ⟨?_, ?_, ?_⟩
  · intro t hg hp
    simp [passes_age_filter, hg, hp]
  · intro hp
    unfold passes_age_filter
    split
    · simp [hp]
    · rfl
  · intro hg
    simp [passes_age_filter, hg]

/-- C4, witness: the case filed 01/01/2000 is removed under the 2027
reference clock, and the case with an unparseable filing date is kept. -/
theorem recency_filter_iff_witness :
    passes_age_filter demoParse demoNow oldCase = false
    ∧ passes_age_filter demoParse demoNow caseA = true :=
  ⟨((recency_filter_iff demoParse demoNow oldCase).1 946684800
      (by decide) (by decide)).mpr (by decide),
   (recency_filter_iff demoParse demoNow caseA).2.1 (by decide)⟩

/-- C10: `_filter_and_sort_cases` returns a permutation of a sub-multiset of
its input — every output case is an input case, with multiplicity never
exceeding its input multiplicity; no case value is created or modified. -/
theorem filter_sort_subperm (parseDate : String → Option Int) (now : Int)
    (cases : List CourtCase) (crit : Option SearchCriteria) :
    (filter_and_sort_cases parseDate now cases crit).Subperm cases
    ∧ ∀ c : CourtCase,
        (filter_and_sort_cases parseDate now cases crit).count c
          ≤ cases.count c := by
  have hsub : (filter_and_sort_cases parseDate now cases crit).Subperm cases :=
    ((List.perm_insertionSort _ _).subperm).trans (List.filter_sublist _).subperm
  exact ⟨hsub, fun c => hsub.count_le c⟩

/-- C5, counterexample: with Broward selected explicitly and its adapter
raising an exception that is not `ValueError`, `ScraperError` or
`NotImplementedError`, `search_court_records` raises instead of degrading to
zero results — the explicit-county branch has no blanket handler. -/
theorem single_county_unexpected_exception_escapes :
    search_court_records envTypeErrorBroward browardCriteria =
      .error .other := by rfl

/-- C5, amended: statewide searches (no county selected) isolate every
per-county failure — each county contributes its cases on success and nothing
when its adapter raises, whatever the exception — while an explicit-county
search catches only `ValueError`, `ScraperError` and `NotImplementedError`
(returning zero results) and lets any other exception escape the call. -/
theorem orchestrator_isolation (env : String → ScraperOutcome)
    (criteria : SearchCriteria) :
    (optTruthy criteria.county = false →
      search_court_records env criteria = .ok (statewide_search env))
    ∧ (∀ county, criteria.county = some county → county ≠ "" →
        (pyStrip (pyLower county) ∉ COUNTY_SCRAPERS →
          search_court_records env criteria = .ok [])
        ∧ (∀ cs, pyStrip (pyLower county) ∈ COUNTY_SCRAPERS →
            env (pyStrip (pyLower county)) = .ok cs →
            search_court_records env criteria = .ok cs)
        ∧ (∀ e, pyStrip (pyLower county) ∈ COUNTY_SCRAPERS →
            env (pyStrip (pyLower county)) = .raised e → e ≠ .other →
            search_court_records env criteria = .ok [])
        ∧ (pyStrip (pyLower county) ∈ COUNTY_SCRAPERS →
            env (pyStrip (pyLower county)) = .raised .other →
            search_court_records env criteria = .error .other)) := by
  constructor
  · intro ht
    rcases hc : criteria.county with _ | county
    · simp [search_court_records, hc]
    · rw [hc] at ht
      simp only [optTruthy, decide_eq_false_iff_not, not_not] at ht
      simp [search_court_records, hc, ht]
  · intro county hc hne
    refine ⟨?_, ?_, ?_, ?_⟩
    · intro hnm
      simp [search_court_records, hc, hne, hnm]
    · intro cs hm henv
      simp [search_court_records, hc, hne, hm, henv]
    · intro e hm henv hno
      cases e with
      | other => exact absurd rfl hno
      | valueError => simp [search_court_records, hc, hne, hm, henv]
      | scraperError => simp [search_court_records, hc, hne, hm, henv]
      | notImplementedError => simp [search_court_records, hc, hne, hm, henv]
    · intro hm henv
      simp [search_court_records, hc, hne, hm, henv]

/-- C5, witness: an explicit Broward search whose adapter raises
`ScraperError` degrades to zero results without raising. -/
theorem orchestrator_isolation_witness :
    search_court_records envScraperErrorBroward browardCriteria = .ok [] :=
  ((orchestrator_isolation envScraperErrorBroward browardCriteria).2
      "Broward" rfl (by decide)).2.2.1 .scraperError (by decide) (by rfl)
    (by decide)

/-- C6, counterexample: when every attempt is blocked, the delays actually
slept between attempts are 10 and 30 seconds — not the claim's full sequence
(10, 30, 90) — because no backoff follows the final attempt, so the last
entry of `BACKOFF_TIMES` is never used. -/
theorem backoff_sequence_counterexample :
    backoff_delays
        (async_search_with_playwright (fun _ => .challengeBlocked)).1 = [10, 30]
    ∧ backoff_delays
        (async_search_with_playwright (fun _ => .challengeBlocked)).1
        ≠ BACKOFF_TIMES :=
  ⟨by decide, by decide⟩

/-- C6, amended: when every attempt of the NY adapter ends with a
still-blocked challenge or a timeout-like exception, the retry loop performs
exactly `MAX_RETRIES = 3` attempts, sleeping 10 seconds after the first and
30 after the second (the configured 90 is never slept), and returns an empty
list without raising. -/
theorem retry_exhaustion_trace (outcomes : Nat → AttemptResult)
    (h : ∀ n, outcomes n = .challengeBlocked
        ∨ outcomes n = .exceptionRaised true) :
    async_search_with_playwright outcomes =
      ([.attempt 1, .backoff 10, .attempt 2, .backoff 30, .attempt 3], []) := by
  have h0 := h 0
  have h1 := h 1
  have h2 := h 2
  rcases h0 with h0 | h0 <;> rcases h1 with h1 | h1 <;> rcases h2 with h2 | h2 <;>
    simp [async_search_with_playwright, MAX_RETRIES, ny_search_loop, h0, h1, h2,
      BACKOFF_TIMES]

/-- C6, witness: the always-blocked adapter yields the three-attempt trace
with backoffs 10 and 30 and an empty result. -/
theorem retry_exhaustion_trace_witness :
    async_search_with_playwright (fun _ => .challengeBlocked) =
      ([.attempt 1, .backoff 10, .attempt 2, .backoff 30, .attempt 3], []) :=
  retry_exhaustion_trace (fun _ => .challengeBlocked) (fun _ => Or.inl rfl)

/-- C7, counterexample: the New York classifier maps the raw text
`FORECLOSURE ACTION` to `Real Estate` (its table has no `Foreclosure`
category; `FORECLOSURE` is a Real-Estate keyword there), so the text does not
classify as `Foreclosure` under every jurisdiction's classifier. -/
theorem foreclosure_ny_real_estate :
    classify_ny_case_type "Civil" "FORECLOSURE ACTION" [] = "Real Estate"
    ∧ classify_ny_case_type "Civil" "FORECLOSURE ACTION" [] ≠ "Foreclosure" :=
  ⟨by decide, by decide⟩

/-- C7, amended: each jurisdiction's classifier is its own ordered
first-match-wins keyword table.  Broward's order is Criminal Felony, Criminal
Misdemeanor, Family, Traffic, Foreclosure, Small Claims, Probate, Civil,
then the default; New York's is Commercial, Contract, Insurance, Debt
Collection, Real Estate, Professional Malpractice, Civil, then the incoming
type.  `FORECLOSURE ACTION` classifies as `Foreclosure` under Broward but as
`Real Estate` under New York, and reordering its words changes neither
outcome. -/
theorem classifier_tables :
    classify_broward_case_type "FORECLOSURE ACTION" "Civil" = "Foreclosure"
    ∧ classify_broward_case_type "ACTION FORECLOSURE" "Civil" = "Foreclosure"
    ∧ classify_ny_case_type "Civil" "FORECLOSURE ACTION" [] = "Real Estate"
    ∧ classify_ny_case_type "Civil" "ACTION FORECLOSURE" [] = "Real Estate"
    ∧ (∀ raw d, classify_broward_case_type raw d ∈
        (["Criminal Felony", "Criminal Misdemeanor", "Family", "Traffic",
          "Foreclosure", "Small Claims", "Probate", "Civil"] : List String)
        ∨ classify_broward_case_type raw d = d)
    ∧ (∀ ct p cells, classify_ny_case_type ct p cells ∈
        (["Commercial", "Contract", "Insurance", "Debt Collection",
          "Real Estate", "Professional Malpractice", "Civil"] : List String)
        ∨ classify_ny_case_type ct p cells = ct) := by
  refine ⟨by decide, by decide, by decide, by decide, ?_, ?_⟩
  · intro raw d
    unfold classify_broward_case_type
    dsimp only
    split_ifs <;> simp
  · intro ct p cells
    unfold classify_ny_case_type
    dsimp only
    split_ifs <;> simp

/-- C8, counterexample: the core search accepts criteria whose required
names are both empty and proceeds to invoke the selected adapter, returning
its results — no validation error is surfaced before network activity. -/
theorem core_search_skips_validation :
    search_court_records envOkBroward emptyNamesCriteria =
      .ok [sampleCase] := by rfl

/-- C8, amended: the core performs no criteria validation — a search with
empty required names runs the adapters and returns their results — while the
required-name check lives in the external HTTP layer, whose handler rejects
any request whose stripped first or last name is blank with the 400 error
`first_name and last_name are required` before building criteria. -/
theorem validation_location (env : String → ScraperOutcome)
    (cs : List CourtCase) (req : ApiRequest) :
    (env "broward" = .ok cs →
      search_court_records env emptyNamesCriteria = .ok cs)
    ∧ (pyStrip (pyOrEmpty req.first_name) = ""
        ∨ pyStrip (pyOrEmpty req.last_name) = "" →
        start_search_validation req =
          .error "first_name and last_name are required") := by
  constructor
  · intro henv
    have hk : pyStrip (pyLower "broward") = "broward" := by decide
    simp [search_court_records, emptyNamesCriteria, COUNTY_SCRAPERS, hk, henv]
  · intro hbad
    unfold start_search_validation
    rw [if_pos hbad]

/-- C8, witness: a concrete empty-names search that reaches the Broward
adapter, and a concrete blank-first-name request the HTTP layer rejects. -/
theorem validation_location_witness :
    search_court_records envOkBroward emptyNamesCriteria = .ok [sampleCase]
    ∧ start_search_validation blankFirstRequest =
        .error "first_name and last_name are required" :=
  ⟨(validation_location envOkBroward [sampleCase] blankFirstRequest).1 (by rfl),
   (validation_location envOkBroward [sampleCase] blankFirstRequest).2
      (Or.inl (by decide))⟩

/-- C9, counterexample: a Kendo grid row whose status text is `STAYED`
extracts to a `CourtCase` whose status is the title-cased passthrough
`Stayed`, which is none of the three canonical values. -/
theorem stayed_status_passthrough :
    (parse_kendo_item stayedItem "Civil").map CourtCase.status = some "Stayed"
    ∧ "Stayed" ∉ (["Open", "Closed", "Unknown"] : List String) :=
  ⟨by decide, by decide⟩

/-- C9, amended: every `CourtCase` produced by Broward's Kendo-grid
extraction has status `Open`, `Closed`, `Unknown`, or the title-cased
passthrough of the raw site status text (the last arising whenever the raw
text is non-empty and contains none of the bucketing keywords). -/
theorem kendo_status_range (item : KendoItem) (c : CourtCase)
    (h : parse_kendo_item item "Civil" = some c) :
    c.status = "Open" ∨ c.status = "Closed" ∨ c.status = "Unknown"
    ∨ c.status = pyTitle (kendo_status_raw item) := by
  unfold parse_kendo_item at h
  split at h
  · exact absurd h (by simp)
  · rw [Option.some.injEq] at h
    subst h
    show broward_normalize_status (kendo_status_raw item) = "Open" ∨ _
    rcases broward_status_range (kendo_status_raw item) with hr | hr | hr | hr <;>
      simp [hr]

/-- C9, witness: the range theorem applied to the `STAYED` row. -/
theorem kendo_status_range_witness :
    ((parse_kendo_item stayedItem "Civil").getD defaultCase).status = "Open"
    ∨ ((parse_kendo_item stayedItem "Civil").getD defaultCase).status = "Closed"
    ∨ ((parse_kendo_item stayedItem "Civil").getD defaultCase).status = "Unknown"
    ∨ ((parse_kendo_item stayedItem "Civil").getD defaultCase).status =
        pyTitle (kendo_status_raw stayedItem) :=
  kendo_status_range stayedItem
    ((parse_kendo_item stayedItem "Civil").getD defaultCase) (by rfl)

end CourtSearch
